import Mathlib

/-!
Shallow embedding of the core of `vis-core` (visualizer2): the window
function library and Fourier analyzer (`src/vis-core/src/analyzer/fourier.rs`),
the pure configuration-derivation part of the two audio recorders
(`src/vis-core/src/recorder/cpal.rs`, `src/vis-core/src/recorder/pulse.rs`),
and the shared sample buffer (modelled from the spec, §3/§4.1, since the
`analyzer` module that implements it is not among the given source files).

`f32` sample values and window coefficients are modelled as real numbers;
complex values as pairs `(re, im)`.  The one place where genuine IEEE-754
behaviour decides a claim (`window::sine` at length 1, which divides by
zero) gets a dedicated NaN-tracking refinement (`window.sineFloat`).
The external FFT library (`rustfft`) is modelled as an uninterpreted
deterministic plan: a function from the input array to the pair
(scratched input, output), mirroring rustfft 2.x `process`, which writes
the transform into `output` and uses `input` as scratch space.
-/

noncomputable section

/-- A complex value, as rustfft's `Complex<f32>`: `(re, im)`. -/
abbrev Cx : Type := ℝ × ℝ

/-- One stereo frame `[f32; 2]`: `(left, right)`. -/
abbrev Frame : Type := ℝ × ℝ

namespace apodize

/-- Modelled from the spec: the `apodize` crate is an external dependency
(not under `src/`); §4.2 names the cosine-family shapes it supplies
(Hann, Hamming, Blackman, Nuttall).  Classic cosine-sum window value at
index `i` of `size` points:
`a - b·cos(2πi/(size-1)) + c·cos(4πi/(size-1)) - d·cos(6πi/(size-1))`. -/
def cosine_at (a b c d : ℝ) (size i : ℕ) : ℝ :=
  a - b * Real.cos (2 * Real.pi * i / ((size : ℝ) - 1))
    + c * Real.cos (4 * Real.pi * i / ((size : ℝ) - 1))
    - d * Real.cos (6 * Real.pi * i / ((size : ℝ) - 1))

/-- Modelled from the spec: `apodize::blackman_iter` (classic Blackman). -/
def blackman_iter (size : ℕ) : List ℝ :=
  (List.range size).map (cosine_at 0.42 0.5 0.08 0 size)

/-- Modelled from the spec: `apodize::hamming_iter`. -/
def hamming_iter (size : ℕ) : List ℝ :=
  (List.range size).map (cosine_at 0.54 0.46 0 0 size)

/-- Modelled from the spec: `apodize::hanning_iter` (Hann). -/
def hanning_iter (size : ℕ) : List ℝ :=
  (List.range size).map (cosine_at 0.5 0.5 0 0 size)

/-- Modelled from the spec: `apodize::nuttall_iter`. -/
def nuttall_iter (size : ℕ) : List ℝ :=
  (List.range size).map (cosine_at 0.355768 0.487396 0.144232 0.012604 size)

/-- Modelled from the spec: `apodize::triangular_iter`. -/
def triangular_iter (size : ℕ) : List ℝ :=
  (List.range size).map (fun i =>
    1 - |((i : ℝ) - ((size : ℝ) - 1) / 2)| / (((size : ℝ) - 1) / 2))

end apodize

namespace window

/-- `window::blackman`: `apodize::blackman_iter(size).map(|f| f as f32).collect()`.
The `f64 → f32` cast is the identity in the real-valued model. -/
def blackman (size : ℕ) : List ℝ := apodize.blackman_iter size

/-- `window::hamming`. -/
def hamming (size : ℕ) : List ℝ := apodize.hamming_iter size

/-- `window::hanning`. -/
def hanning (size : ℕ) : List ℝ := apodize.hanning_iter size

/-- `window::none`: `vec![1.0; size]`. -/
def none (size : ℕ) : List ℝ := List.replicate size 1

/-- `window::nuttall`. -/
def nuttall (size : ℕ) : List ℝ := apodize.nuttall_iter size

/-- `window::sine`:
`(0..size).map(|i| (i as f32 / (size - 1) as f32 * PI).sin()).collect()`.
Real-valued idealization; `size - 1` is the `usize` (truncated) subtraction
of the source, cast afterwards.  The float-accurate refinement of the same
line, tracking the NaN that the `f32` division produces at `size = 1`, is
`window.sineFloat` below. -/
def sine (size : ℕ) : List ℝ :=
  (List.range size).map (fun i =>
    Real.sin ((i : ℝ) / ((size - 1 : ℕ) : ℝ) * Real.pi))

/-- `window::triangular`. -/
def triangular (size : ℕ) : List ℝ := apodize.triangular_iter size

/-- `window::from_str`: the name-to-generator lookup (a `match` returning
`Option<fn(usize) -> Vec<f32>>`, `None` on the catch-all arm). -/
def from_str (name : String) : Option (ℕ → List ℝ) :=
  if name = "blackman" then some blackman
  else if name = "hamming" then some hamming
  else if name = "hanning" then some hanning
  else if name = "none" then some window.none
  else if name = "nuttall" then some nuttall
  else if name = "sine" then some sine
  else if name = "triangular" then some triangular
  else Option.none

end window

/-- An `f32` value that is either NaN or a finite real.  Used to refine the
single source expression whose IEEE-754 behaviour matters to a claim. -/
inductive F32 where
  | nan : F32
  | fin : ℝ → F32
  deriving DecidableEq

namespace window

/-- Float-accurate value of `(i as f32 / (size - 1) as f32 * PI).sin()` from
`window::sine`.  When `(size - 1) as f32 = 0` (that is, `size = 1`, where the
only index is `i = 0`) the division is `0.0 / 0.0 = NaN` and both `NaN * PI`
and `sin(NaN)` stay NaN; a nonzero numerator over zero would give `±∞`, and
`(±∞ * PI).sin()` is NaN as well, so every zero-divisor case ends in NaN.
Otherwise all intermediate values are finite and the result is the finite
sine value of the real-valued model. -/
def sineElemFloat (size i : ℕ) : F32 :=
  if size - 1 = 0 then F32.nan
  else F32.fin (Real.sin ((i : ℝ) / ((size - 1 : ℕ) : ℝ) * Real.pi))

/-- Float-accurate refinement of `window::sine` (same source line as
`window.sine`, with the `f32` NaN semantics made explicit). -/
def sineFloat (size : ℕ) : List F32 :=
  (List.range size).map (sineElemFloat size)

end window

/-- Modelled from the spec: `analyzer::SampleBuffer` (the AudioFrameBuffer of
§3/§4.1) is implemented in vis-core's `analyzer` module, which is not among
the given source files — only its callers are.  Per §3 it holds the
`capacity` most recently pushed frames (`data`, oldest first) plus the
sample rate; never-written slots read as silence. -/
structure SampleBuffer where
  capacity : ℕ
  rate : ℕ
  data : List Frame

namespace SampleBuffer

/-- Modelled from the spec (§4.1): `SampleBuffer::new(capacity, rate)`
allocates an empty (all-silent) buffer. -/
def new (capacity rate : ℕ) : SampleBuffer :=
  { capacity := capacity, rate := rate, data := [] }

/-- Modelled from the spec (§4.1): `push(frames)` appends in order and keeps
only the `capacity` most recent frames, overwriting the oldest. -/
def push (b : SampleBuffer) (frames : List Frame) : SampleBuffer :=
  { b with data := (b.data ++ frames).drop ((b.data.length + frames.length) - b.capacity) }

/-- Modelled from the spec (§4.1): `iter(n, d)` yields exactly `n` frames,
every `d`-th raw frame walking backward from the newest, presented
oldest-to-newest; the missing prefix (cold start) is silence `(0,0)`.
Output index `j` (0 = oldest) is the frame `(n - 1 - j) * d` steps back
from the newest. -/
def iter (b : SampleBuffer) (n d : ℕ) : List Frame :=
  (List.range n).map (fun j =>
    let back := (n - 1 - j) * d
    if back < b.data.length then b.data.getD (b.data.length - 1 - back) (0, 0)
    else (0, 0))

end SampleBuffer

/-- `FourierAnalyzer` (fourier.rs lines 85–94).  The `input: [Vec; 2]` array
is split into `input0`/`input1`; `fft` is the external plan returned by
`FFTplanner::new(false).plan_fft(length)`, modelled as a deterministic map
from the input array to `(scratched input, output)` — rustfft 2.x `process`
writes the transform into the output slice and uses the input slice as
scratch space. -/
structure FourierAnalyzer where
  length : ℕ
  window : List ℝ
  downsample : ℕ
  fft : List Cx → List Cx × List Cx
  input0 : List Cx
  input1 : List Cx
  output : List Cx

namespace FourierAnalyzer

/-- `FourierAnalyzer::new(length, window, downsample)` (fourier.rs 96–112):
plans the FFT for `length`, stores the three fields unchanged, allocates the
two empty input vectors (`Vec::with_capacity` ⇒ length 0) and the
zero-filled output vector.  No validation is performed and no error can be
returned (the function's type is `FourierAnalyzer`, not `Result`). -/
def new (plan_fft : ℕ → List Cx → List Cx × List Cx)
    (length : ℕ) (window : List ℝ) (downsample : ℕ) : FourierAnalyzer :=
  { length := length
    window := window
    downsample := downsample
    fft := plan_fft length
    input0 := []
    input1 := []
    output := List.replicate length ((0 : ℝ), (0 : ℝ)) }

/-- The left-channel complex input built by `analyze`'s copy loop
(fourier.rs 116–124): zip the decimated frames with the window
coefficients (Rust's `zip` stops at the shorter) and push
`Complex::new(l * window, 0.0)`. -/
def leftInput (a : FourierAnalyzer) (buf : SampleBuffer) : List Cx :=
  ((buf.iter a.length a.downsample).zip a.window).map
    (fun p => (p.1.1 * p.2, (0 : ℝ)))

/-- The right-channel complex input built by the same loop:
`Complex::new(r * window, 0.0)`. -/
def rightInput (a : FourierAnalyzer) (buf : SampleBuffer) : List Cx :=
  ((buf.iter a.length a.downsample).zip a.window).map
    (fun p => (p.1.2 * p.2, (0 : ℝ)))

/-- `FourierAnalyzer::analyze` (fourier.rs 114–131): clear and refill both
input vectors from `buf.iter(length, downsample)` zipped with the window,
then `fft.process(&mut input[0], &mut output)` followed by
`fft.process(&mut input[1], &mut output)` — both calls write into the same
`output` vector, the second overwriting the first, and each leaves its
input vector holding scratch data. -/
def analyze (a : FourierAnalyzer) (buf : SampleBuffer) : FourierAnalyzer :=
  let a1 := { a with
    input0 := (a.fft (a.leftInput buf)).1
    output := (a.fft (a.leftInput buf)).2 }
  { a1 with
    input1 := (a1.fft (a1.rightInput buf)).1
    output := (a1.fft (a1.rightInput buf)).2 }

end FourierAnalyzer

/-- `FourierBuilder` (fourier.rs 49–54): three optional fields. -/
structure FourierBuilder where
  length : Option ℕ
  window : Option (ℕ → List ℝ)
  downsample : Option ℕ

namespace FourierBuilder

/-- `FourierBuilder::plan` (fourier.rs 76–82): defaults
`length = 1024`, `window = window::none`, `downsample = 1`; the window
generator is invoked at the (defaulted) length; then `FourierAnalyzer::new`. -/
def plan (plan_fft : ℕ → List Cx → List Cx × List Cx)
    (b : FourierBuilder) : FourierAnalyzer :=
  let length := b.length.getD 1024
  let window := (b.window.getD window.none) length
  let downsample := b.downsample.getD 1
  FourierAnalyzer.new plan_fft length window downsample

end FourierBuilder

/-- `ezconf` configuration lookup `CONFIG.get_or(key, default)`, modelled as
an arbitrary key-to-value environment with a default. -/
def get_or (cfg : String → Option ℕ) (key : String) (dflt : ℕ) : ℕ :=
  (cfg key).getD dflt

/-- `CPalBuilder` (cpal.rs 6–11). -/
structure CPalBuilder where
  rate : Option ℕ
  buffer_size : Option ℕ
  read_size : Option ℕ

/-- The values `CPalRecorder::from_builder` derives before spawning the
capture thread (cpal.rs 50–61); the thread itself and the host-API calls
are platform IO outside the embedding. -/
structure CPalRecorderInit where
  rate : ℕ
  buffer_size : ℕ
  read_size : ℕ
  buffer : SampleBuffer

namespace CPalRecorder

/-- `CPalRecorder::from_builder` (cpal.rs 50–61): `rate` from the builder's
`rate` else config `"audio.rate"` default 8000; `buffer_size` from the
builder's `buffer_size` else config `"audio.buffer"` default 16000;
`read_size` from the builder's `buffer_size` field (the source reads
`build.buffer_size` again, not `build.read_size`) else config
`"audio.read_size"` default 256; then `SampleBuffer::new(buffer_size, rate)`. -/
def from_builder (cfg : String → Option ℕ) (build : CPalBuilder) : CPalRecorderInit :=
  let rate := build.rate.getD (get_or cfg "audio.rate" 8000)
  let buffer_size := build.buffer_size.getD (get_or cfg "audio.buffer" 16000)
  let read_size := build.buffer_size.getD (get_or cfg "audio.read_size" 256)
  { rate := rate
    buffer_size := buffer_size
    read_size := read_size
    buffer := SampleBuffer.new buffer_size rate }

end CPalRecorder

/-- `PulseBuilder` (pulse.rs 4–9). -/
structure PulseBuilder where
  rate : Option ℕ
  read_size : Option ℕ
  buffer_size : Option ℕ

/-- The values `PulseRecorder::from_builder` derives before spawning the
capture thread (pulse.rs 47–58). -/
structure PulseRecorderInit where
  rate : ℕ
  buffer_size : ℕ
  read_size : ℕ
  buffer : SampleBuffer

namespace PulseRecorder

/-- `PulseRecorder::from_builder` (pulse.rs 47–58): identical derivation to
the cpal recorder, with config default 32 for `"audio.read_size"`;
`read_size` again comes from `build.buffer_size`, never `build.read_size`. -/
def from_builder (cfg : String → Option ℕ) (build : PulseBuilder) : PulseRecorderInit :=
  let rate := build.rate.getD (get_or cfg "audio.rate" 8000)
  let buffer_size := build.buffer_size.getD (get_or cfg "audio.buffer" 16000)
  let read_size := build.buffer_size.getD (get_or cfg "audio.read_size" 32)
  { rate := rate
    buffer_size := buffer_size
    read_size := read_size
    buffer := SampleBuffer.new buffer_size rate }

end PulseRecorder

/-- A concrete stand-in for the external FFT plan, used to evaluate closed
statements: the "transform" is the identity on the input array and the
scratched input is zero-filled (rustfft documents the input slice as
garbage after `process`).  The external library's behaviour is out of
scope; closed theorems that use `planId` are statements about what
`analyze` does with whatever deterministic plan it holds. -/
def planId : ℕ → List Cx → List Cx × List Cx :=
  fun _ l => (List.replicate l.length ((0 : ℝ), (0 : ℝ)), l)

end

/-- `iter(n, d)` always yields exactly `n` frames (cold start fills with
silence rather than shortening the window). -/
theorem SampleBuffer.iter_length (b : SampleBuffer) (n d : ℕ) :
    (b.iter n d).length = n := by
  simp [SampleBuffer.iter]

/-- Element `i` of the zipped, windowed, complexified copy loop: the product
of the extracted channel sample and the window coefficient, imaginary part
zero. -/
theorem getD_zip_map (f : Frame → ℝ) (xs : List Frame) (ws : List ℝ) (i : ℕ)
    (hx : i < xs.length) (hw : i < ws.length) :
    ((xs.zip ws).map (fun p => (f p.1 * p.2, (0 : ℝ)))).getD i (0, 0) =
      (f (xs.getD i (0, 0)) * ws.getD i 0, 0) := by
  induction xs generalizing ws i with
  | nil => simp at hx
  | cons x xs ih =>
      cases ws with
      | nil => simp at hw
      | cons w ws =>
          cases i with
          | zero => rfl
          | succ i =>
              simp only [List.zip_cons_cons, List.map_cons, List.getD_cons_succ]
              exact ih ws i (Nat.lt_of_succ_lt_succ hx) (Nat.lt_of_succ_lt_succ hw)

/-- Claim C2 (amended): constructing a FourierAnalyzer never fails.
`FourierAnalyzer::new` performs no validation: for every transform length
`n` (including 0), every coefficient vector `w` (including ones whose count
differs from `n`) and every downsample factor, it returns a fully
constructed analyzer storing exactly the supplied fields; no
ConfigurationError path exists. -/
theorem C2_construction_infallible (plan_fft : ℕ → List Cx → List Cx × List Cx)
    (n : ℕ) (w : List ℝ) (d : ℕ) :
    (FourierAnalyzer.new plan_fft n w d).length = n ∧
    (FourierAnalyzer.new plan_fft n w d).window = w ∧
    (FourierAnalyzer.new plan_fft n w d).downsample = d ∧
    (FourierAnalyzer.new plan_fft n w d).input0 = [] ∧
    (FourierAnalyzer.new plan_fft n w d).input1 = [] ∧
    (FourierAnalyzer.new plan_fft n w d).output = List.replicate n ((0 : ℝ), (0 : ℝ)) :=
  ⟨rfl, rfl, rfl, rfl, rfl, rfl⟩

/-- Claim C2, counterexample to the claim as stated: the claim demands that
construction fail with a ConfigurationError whenever the window coefficient
count differs from the transform length.  Here the count is 2 and the
length 4, yet `new` succeeds and returns the complete analyzer record — its
return type is `FourierAnalyzer`, not a `Result`, so no failure is even
possible. -/
theorem C2_mismatched_window_succeeds :
    FourierAnalyzer.new planId 4 [1, 1] 1 =
      { length := 4, window := [1, 1], downsample := 1, fft := planId 4,
        input0 := [], input1 := [], output := List.replicate 4 ((0 : ℝ), (0 : ℝ)) } ∧
    ([(1 : ℝ), 1] : List ℝ).length ≠ 4 :=
  ⟨rfl, by norm_num⟩

/-- Claim C6: `plan()` uses the documented defaults field by field —
transform length 1024, window `none` (all-ones coefficients of the
transform length, defaulted or explicitly set) and downsample factor 1 —
and uses explicitly set fields exactly as given, each independently of
whether the other fields are specified.  Besides the all-default and
all-explicit builders, each field is stated with the other two arbitrary
(`lo`, `wo`, `dopt`): in particular an unspecified window on a builder
whose length is set to `n` yields the all-ones window of length `n`,
since `plan` invokes the generator at the defaulted-or-set length
`lo.getD 1024`. -/
theorem C6_plan_defaults (plan_fft : ℕ → List Cx → List Cx × List Cx)
    (lo : Option ℕ) (wo : Option (ℕ → List ℝ)) (dopt : Option ℕ) :
    FourierBuilder.plan plan_fft ⟨Option.none, Option.none, Option.none⟩ =
      FourierAnalyzer.new plan_fft 1024 (List.replicate 1024 1) 1 ∧
    (∀ (n : ℕ) (w : ℕ → List ℝ) (d : ℕ),
      FourierBuilder.plan plan_fft ⟨some n, some w, some d⟩ =
        FourierAnalyzer.new plan_fft n (w n) d) ∧
    ((FourierBuilder.plan plan_fft ⟨Option.none, wo, dopt⟩).length = 1024 ∧
     ∀ n : ℕ, (FourierBuilder.plan plan_fft ⟨some n, wo, dopt⟩).length = n) ∧
    ((FourierBuilder.plan plan_fft ⟨lo, Option.none, dopt⟩).window =
        List.replicate (lo.getD 1024) 1 ∧
     ∀ w : ℕ → List ℝ,
       (FourierBuilder.plan plan_fft ⟨lo, some w, dopt⟩).window = w (lo.getD 1024)) ∧
    ((FourierBuilder.plan plan_fft ⟨lo, wo, Option.none⟩).downsample = 1 ∧
     ∀ d : ℕ, (FourierBuilder.plan plan_fft ⟨lo, wo, some d⟩).downsample = d) :=
  ⟨rfl, fun _ _ _ => rfl, ⟨rfl, fun _ => rfl⟩, ⟨rfl, fun _ => rfl⟩,
   ⟨rfl, fun _ => rfl⟩⟩

/-- Claim C8: calling `analyze` twice on the same analyzer with the same
(unpushed-to) buffer reproduces the first call's result exactly — the whole
post-state, in particular the output array, is identical, because `analyze`
clears and rebuilds the inputs from the buffer and configuration alone. -/
theorem C8_analyze_idempotent (a : FourierAnalyzer) (buf : SampleBuffer) :
    (a.analyze buf).analyze buf = a.analyze buf := rfl

/-- Claim C9: the "none" (rectangular) window returns exactly `N`
coefficients, every one equal to 1.0 (for every `N`, hence in particular
every `N ≥ 1`). -/
theorem C9_none_window (n : ℕ) :
    (window.none n).length = n ∧ ∀ x ∈ window.none n, x = (1 : ℝ) :=
  ⟨List.length_replicate n 1, fun _ hx => List.eq_of_mem_replicate hx⟩

/-- Claim C5: in both recorders' `from_builder`, the per-read chunk size
`read_size` is taken from the builder's `buffer_size` field whenever that
field is set (forcing it to the same value as the buffer size), and the
builder's `read_size` field is never consulted — changing it changes
nothing in the derived configuration. -/
theorem C5_read_size_from_buffer_size (cfg : String → Option ℕ)
    (b : CPalBuilder) (p : PulseBuilder) (n m : ℕ) (r r' : Option ℕ)
    (hb : b.buffer_size = some n) (hp : p.buffer_size = some m) :
    (CPalRecorder.from_builder cfg b).read_size = n ∧
    (PulseRecorder.from_builder cfg p).read_size = m ∧
    (CPalRecorder.from_builder cfg b).buffer_size = n ∧
    (PulseRecorder.from_builder cfg p).buffer_size = m ∧
    CPalRecorder.from_builder cfg { b with read_size := r } =
      CPalRecorder.from_builder cfg b ∧
    PulseRecorder.from_builder cfg { p with read_size := r' } =
      PulseRecorder.from_builder cfg p := by
  refine ⟨?_, ?_, ?_, ?_, rfl, rfl⟩ <;>
    simp [CPalRecorder.from_builder, PulseRecorder.from_builder, hb, hp]

/-- Witness for C5 at a concrete configuration and builders. -/
theorem C5_witness :
    ((⟨some 1, some 100, some 7⟩ : CPalBuilder).buffer_size = some 100) ∧
    ((⟨some 1, some 7, some 100⟩ : PulseBuilder).buffer_size = some 100) ∧
    ((CPalRecorder.from_builder (fun _ => Option.none) ⟨some 1, some 100, some 7⟩).read_size = 100 ∧
     (PulseRecorder.from_builder (fun _ => Option.none) ⟨some 1, some 7, some 100⟩).read_size = 100 ∧
     (CPalRecorder.from_builder (fun _ => Option.none) ⟨some 1, some 100, some 7⟩).buffer_size = 100 ∧
     (PulseRecorder.from_builder (fun _ => Option.none) ⟨some 1, some 7, some 100⟩).buffer_size = 100 ∧
     CPalRecorder.from_builder (fun _ => Option.none)
         { (⟨some 1, some 100, some 7⟩ : CPalBuilder) with read_size := some 9 } =
       CPalRecorder.from_builder (fun _ => Option.none) ⟨some 1, some 100, some 7⟩ ∧
     PulseRecorder.from_builder (fun _ => Option.none)
         { (⟨some 1, some 7, some 100⟩ : PulseBuilder) with read_size := some 9 } =
       PulseRecorder.from_builder (fun _ => Option.none) ⟨some 1, some 7, some 100⟩) :=
  ⟨rfl, rfl,
   C5_read_size_from_buffer_size (fun _ => Option.none) ⟨some 1, some 100, some 7⟩
     ⟨some 1, some 7, some 100⟩ 100 100 (some 9) (some 9) rfl rfl⟩

/-- Claim C7: for each channel independently, the complex input array that
`analyze` builds and hands to the transform has, at every index
`i < N`, the `i`-th decimated buffer sample of that channel multiplied by
the `i`-th window coefficient (index-aligned) as real part and zero
imaginary part; `iter` yields the required `N` frames
(`SampleBuffer.iter_length`), and the window has length `N` on a validly
constructed analyzer. -/
theorem C7_windowed_input (a : FourierAnalyzer) (buf : SampleBuffer) (i : ℕ)
    (hw : a.window.length = a.length) (hi : i < a.length) :
    (a.leftInput buf).getD i (0, 0) =
      (((buf.iter a.length a.downsample).getD i (0, 0)).1 * a.window.getD i 0, 0) ∧
    (a.rightInput buf).getD i (0, 0) =
      (((buf.iter a.length a.downsample).getD i (0, 0)).2 * a.window.getD i 0, 0) := by
  have h1 : i < (buf.iter a.length a.downsample).length := by
    rw [SampleBuffer.iter_length]; exact hi
  have h2 : i < a.window.length := by rw [hw]; exact hi
  exact ⟨getD_zip_map (fun q => q.1) _ _ _ h1 h2,
         getD_zip_map (fun q => q.2) _ _ _ h1 h2⟩

/-- Witness for C7: analyzer of length 1 with window `[1]`, a one-frame
buffer `(5, 7)`, index 0. -/
theorem C7_witness :
    ((FourierAnalyzer.new planId 1 [1] 1).window.length =
      (FourierAnalyzer.new planId 1 [1] 1).length) ∧
    (0 < (FourierAnalyzer.new planId 1 [1] 1).length) ∧
    (((FourierAnalyzer.new planId 1 [1] 1).leftInput ⟨1, 8000, [(5, 7)]⟩).getD 0 (0, 0) =
      ((((⟨1, 8000, [(5, 7)]⟩ : SampleBuffer).iter
          (FourierAnalyzer.new planId 1 [1] 1).length
          (FourierAnalyzer.new planId 1 [1] 1).downsample).getD 0 (0, 0)).1 *
        (FourierAnalyzer.new planId 1 [1] 1).window.getD 0 0, 0) ∧
     ((FourierAnalyzer.new planId 1 [1] 1).rightInput ⟨1, 8000, [(5, 7)]⟩).getD 0 (0, 0) =
      ((((⟨1, 8000, [(5, 7)]⟩ : SampleBuffer).iter
          (FourierAnalyzer.new planId 1 [1] 1).length
          (FourierAnalyzer.new planId 1 [1] 1).downsample).getD 0 (0, 0)).2 *
        (FourierAnalyzer.new planId 1 [1] 1).window.getD 0 0, 0)) :=
  ⟨rfl, Nat.one_pos,
   C7_windowed_input (FourierAnalyzer.new planId 1 [1] 1) ⟨1, 8000, [(5, 7)]⟩ 0
     rfl Nat.one_pos⟩

/-- Claim C10: the name-to-generator lookup returns `None` for every name
outside the registered set and a generator for each of the seven
registered names. -/
theorem C10_from_str_lookup :
    (∀ s : String,
        s ∉ (["blackman", "hamming", "hanning", "none", "nuttall", "sine",
              "triangular"] : List String) →
        window.from_str s = Option.none) ∧
    (∀ s ∈ (["blackman", "hamming", "hanning", "none", "nuttall", "sine",
             "triangular"] : List String),
        (window.from_str s).isSome = true) := by
  constructor
  · intro s h
    simp only [List.mem_cons, List.not_mem_nil, or_false, not_or] at h
    obtain ⟨h1, h2, h3, h4, h5, h6, h7⟩ := h
    simp [window.from_str, h1, h2, h3, h4, h5, h6, h7]
  · intro s hs
    fin_cases hs <;> rfl

/-- Witness for C10: the unregistered name "gaussian" maps to `None`; the
registered name "sine" maps to a generator. -/
theorem C10_witness :
    window.from_str "gaussian" = Option.none ∧
    (window.from_str "sine").isSome = true :=
  ⟨C10_from_str_lookup.1 "gaussian" (by decide),
   C10_from_str_lookup.2 "sine" (by decide)⟩

/-- Claim C1 (code-bug evidence, closed evaluation): `analyze` runs both
channels' transforms into the single `output` vector — the second
`process` call overwrites the first — so after `analyze` the left
channel's transform result is no longer available anywhere in the
analyzer.  With the deterministic stand-in plan `planId` (output =
input, scratched input = zeros), a length-2 analyzer with window `[1, 1]`
over the frames `[(1, 2), (3, 4)]` ends with `output` holding the right
channel's bins `[(2, 0), (4, 0)]`, which differ from the left channel's
bins `[(1, 0), (3, 0)]` that the first `process` call had produced, and
both input vectors hold scratch zeros, not the left result. -/
theorem C1_left_transform_overwritten :
    ((FourierAnalyzer.new planId 2 [1, 1] 1).analyze
        ⟨2, 8000, [(1, 2), (3, 4)]⟩).output = [((2 : ℝ), 0), ((4 : ℝ), 0)] ∧
    (planId 2 ((FourierAnalyzer.new planId 2 [1, 1] 1).leftInput
        ⟨2, 8000, [(1, 2), (3, 4)]⟩)).2 = [((1 : ℝ), 0), ((3 : ℝ), 0)] ∧
    ((FourierAnalyzer.new planId 2 [1, 1] 1).analyze
        ⟨2, 8000, [(1, 2), (3, 4)]⟩).output ≠ [((1 : ℝ), 0), ((3 : ℝ), 0)] ∧
    ((FourierAnalyzer.new planId 2 [1, 1] 1).analyze
        ⟨2, 8000, [(1, 2), (3, 4)]⟩).input0 = [((0 : ℝ), 0), ((0 : ℝ), 0)] ∧
    ((FourierAnalyzer.new planId 2 [1, 1] 1).analyze
        ⟨2, 8000, [(1, 2), (3, 4)]⟩).input1 = [((0 : ℝ), 0), ((0 : ℝ), 0)] := by
  norm_num [FourierAnalyzer.new, FourierAnalyzer.analyze,
    FourierAnalyzer.leftInput, FourierAnalyzer.rightInput,
    SampleBuffer.iter, planId, List.range_succ, List.replicate_succ]

/-- Claim C4 (code-bug evidence): the sine window generator at length 1
returns its single coefficient as NaN — `(0 as f32 / (1 - 1) as f32 * PI)
.sin()` is `sin(0.0/0.0 · π) = NaN` — contradicting the claim that every
coefficient of every registered shape at every `N ≥ 1` lies in `[0, 1]`
and in particular is not NaN. -/
theorem C4_sine_one_is_nan : window.sineFloat 1 = [F32.nan] := rfl
